import Mathlib

/-!
Verification of the `sticho` microservice's authentication gate
(`service/middleware/auth.py`, wired in `service/run.py`).

Strings are modelled over their character lists: Python's
`str.startswith` is `List.isPrefixOf`, slicing `s[7:]` is `List.drop 7`,
and `str.strip()` drops whitespace from both ends.  The Stytch SDK is an
oracle record (`StytchClient`); a call that can raise a Python exception
is modelled as `Except String`.  An uncaught Python exception escaping
`dispatch` is modelled as the `Except.error` of `dispatch` itself.
-/

deriving instance DecidableEq for Except

namespace Sticho

/-- Python `s.startswith(p)`. -/
def pyStartsWith (s p : String) : Bool := p.data.isPrefixOf s.data

/-- Python `s[n:]` (drop the first `n` characters). -/
def strDrop (s : String) (n : Nat) : String := ⟨s.data.drop n⟩

/-- Python `s.strip()`: remove whitespace from both ends. -/
def pyStrip (s : String) : String :=
  ⟨((s.data.dropWhile Char.isWhitespace).reverse.dropWhile Char.isWhitespace).reverse⟩

/-- Python truthiness of an optional string: `None` and `""` are falsy. -/
def truthy : Option String → Bool
  | none => false
  | some s => s != ""

/-- Session record returned by the Stytch SDK (user and session ids). -/
structure ProviderSession where
  user_id : String
  session_id : String
deriving Repr, DecidableEq

/-- The dict produced by `validate_session` / `require_auth`. -/
structure SessionInfo where
  user_id : String
  session_id : String
  authenticated : Bool
deriving Repr, DecidableEq

/-- Oracle for the external Stytch SDK.  `authenticate_jwt_local` may
raise (`.error`) or return `None` (`.ok none`) or a session;
`authenticate` and `oauth.authenticate` may raise or return a result. -/
structure StytchClient where
  authenticate_jwt_local : String → Except String (Option ProviderSession)
  authenticate : String → Except String ProviderSession
  oauth_authenticate : String → Except String String

/-- The fields of `request.state` that the gate writes
(`authenticated`, `session`, `user_id`); `none` = never assigned. -/
structure ReqState where
  authenticated : Option Bool
  session : Option SessionInfo
  user_id : Option String
deriving Repr, DecidableEq

/-- The request data the gate reads: `request.url.path`,
`request.cookies.get("session")`, and the `Authorization` header
(`none` when the header is absent). -/
structure Request where
  path : String
  cookieSession : Option String
  authHeader : Option String
deriving Repr, DecidableEq

/-- Outcome of `StytchAuthMiddleware.dispatch`: forward to `call_next`
with the written request state, or short-circuit with a
`JSONResponse(status, {"error": err})`. -/
inductive DispatchResult where
  | next (st : ReqState)
  | response (status : Nat) (error : String)
deriving Repr, DecidableEq

/-- `PUBLIC_PATHS` from `service/middleware/auth.py`. -/
def PUBLIC_PATHS : List String :=
  ["/", "/auth/", "/auth/sso/google", "/auth/callback", "/docs", "/redoc"]

/-- The public-path membership test of `dispatch`:
`any(request.url.path.startswith(path) for path in self.public_paths)`. -/
def publicMatch (path : String) : Bool :=
  PUBLIC_PATHS.any (fun p => pyStartsWith path p)

/-- Token extraction shared by both branches of `dispatch`
(auth.py lines 52-56 and 90-94): take the `session` cookie; if it is
falsy and an `Authorization` header is present and starts with
`"Bearer "`, take the header minus the prefix; a non-`Bearer` header
leaves the cookie value (possibly `None`) in place — there is no
`else` branch in the middleware. -/
def getSessionToken (cookie authHeader : Option String) : Option String :=
  if truthy cookie then cookie
  else
    match authHeader with
    | none => cookie
    | some h => if pyStartsWith h "Bearer " then some (strDrop h 7) else cookie

/-- `validate_session` (auth.py lines 119-165): local JWT check first;
if it returns a falsy result, fall back to the remote API; any raised
exception is re-raised as `"Invalid session: " ++ e`. -/
def validate_session (c : StytchClient) (session_token : String) :
    Except String SessionInfo :=
  if session_token == "" then .error "No session token provided"
  else
    match c.authenticate_jwt_local session_token with
    | .error e => .error ("Invalid session: " ++ e)
    | .ok (some s) => .ok ⟨s.user_id, s.session_id, true⟩
    | .ok none =>
      match c.authenticate session_token with
      | .error e => .error ("Invalid session: " ++ e)
      | .ok r => .ok ⟨r.user_id, r.session_id, true⟩

/-- `StytchAuthMiddleware.dispatch` (auth.py lines 41-116).  The outer
`Except` models an uncaught Python exception escaping `dispatch`: on the
GraphQL branch `session_token.strip()` is applied before the `try`
block, so an absent token there is an uncaught `AttributeError`. -/
def dispatch (enforce_iam : Bool) (c : StytchClient) (req : Request) :
    Except String DispatchResult :=
  if !enforce_iam then
    .ok (.next ⟨some true, none, none⟩)
  else if publicMatch req.path then
    .ok (.next ⟨none, none, none⟩)
  else if pyStartsWith req.path "/gql" then
    match getSessionToken req.cookieSession req.authHeader with
    | none => .error "AttributeError: NoneType object has no attribute strip"
    | some t0 =>
      let t := pyStrip t0
      if t == "" then
        .ok (.response 401 "Authentication required for GraphQL endpoint")
      else
        match validate_session c t with
        | .ok s => .ok (.next ⟨some true, some s, some s.user_id⟩)
        | .error e => .ok (.response 401 ("Invalid session: " ++ e))
  else
    match getSessionToken req.cookieSession req.authHeader with
    | none => .ok (.response 401 "Authentication required")
    | some t =>
      if t == "" then .ok (.response 401 "Authentication required")
      else
        match validate_session c t with
        | .ok s => .ok (.next ⟨some true, some s, some s.user_id⟩)
        | .error e => .ok (.response 401 ("Invalid session: " ++ e))

/-- Outcome of the `require_auth` dependency: return the session info
(having written the request state), or raise `HTTPException(status,
detail)`. -/
inductive AuthOutcome where
  | authOk (st : ReqState) (info : SessionInfo)
  | httpError (status : Nat) (detail : String)
deriving Repr, DecidableEq

/-- Token extraction of `require_auth` (auth.py lines 260-267): cookie
first; else, if the header is truthy, strip a `"Bearer "` prefix or use
the raw header value, then `.strip()` the result. -/
def getSessionTokenDep (session authorization : Option String) : Option String :=
  if truthy session then session
  else
    match authorization with
    | none => session
    | some a =>
      if a != "" then
        some (pyStrip (if pyStartsWith a "Bearer " then strDrop a 7 else a))
      else session

/-- `require_auth` (auth.py lines 224-294). -/
def require_auth (enforce_iam : Bool) (c : StytchClient)
    (session authorization : Option String) : AuthOutcome :=
  if !enforce_iam then
    .authOk ⟨some true, some ⟨"anonymous", "none", true⟩, some "anonymous"⟩
      ⟨"anonymous", "none", true⟩
  else
    match getSessionTokenDep session authorization with
    | none => .httpError 401 "Authentication required"
    | some t =>
      if t == "" then .httpError 401 "Authentication required"
      else
        match validate_session c t with
        | .ok s => .authOk ⟨some true, some s, some s.user_id⟩ s
        | .error e => .httpError 401 ("Invalid session: " ++ e)

/-- The `Set-Cookie` attributes used by `handle_oauth_callback`. -/
structure SetCookie where
  key : String
  value : String
  httponly : Bool
  samesite : String
deriving Repr, DecidableEq

/-- Response of `handle_oauth_callback`: a JSON error body
`{"error": err}` with a status, or a redirect that sets a cookie. -/
inductive CallbackResponse where
  | jsonError (status : Nat) (error : String)
  | redirect (url : String) (cookie : SetCookie)
deriving Repr, DecidableEq

/-- `handle_oauth_callback` (auth.py lines 185-221). -/
def handle_oauth_callback (c : StytchClient) (token : Option String) :
    CallbackResponse :=
  match token with
  | none => .jsonError 400 "No authentication token provided"
  | some t =>
    if t == "" then .jsonError 400 "No authentication token provided"
    else
      match c.oauth_authenticate t with
      | .ok jwt => .redirect "/gql" ⟨"session", jwt, true, "lax"⟩
      | .error e => .jsonError 401 ("Authentication failed: " ++ e)

/-! Concrete oracles used by witnesses and counterexamples. -/

/-- Oracle whose every call raises. -/
def errClient : StytchClient :=
  ⟨fun _ => .error "local-err", fun _ => .error "remote-err", fun _ => .error "oauth-err"⟩

/-- Oracle whose local check succeeds. -/
def okClient : StytchClient :=
  ⟨fun _ => .ok (some ⟨"u1", "s1"⟩), fun _ => .ok ⟨"u1", "s1"⟩, fun _ => .ok "jwt-1"⟩

/-- Oracle whose local check yields no result and whose remote check
succeeds. -/
def remoteOnlyClient : StytchClient :=
  ⟨fun _ => .ok none, fun _ => .ok ⟨"u-remote", "s-remote"⟩, fun _ => .error "no-oauth"⟩

/-- Oracle whose local check yields no result and whose remote check
raises. -/
def failClient : StytchClient :=
  ⟨fun _ => .ok none, fun _ => .error "remote-bad", fun _ => .error "oauth-bad"⟩

/-- Oracle whose local check raises with the token itself as message,
making the validated token observable in the response body. -/
def echoClient : StytchClient :=
  ⟨fun t => .error t, fun t => .error t, fun t => .error t⟩

/-! Helper lemmas. -/

lemma isPrefixOf_trans : ∀ (a b c : List Char),
    a.isPrefixOf b = true → b.isPrefixOf c = true → a.isPrefixOf c = true := by
  intro a b c hab hbc
  rw [ List.isPrefixOf_iff_prefix] at *
  exact hab.trans hbc

lemma isPrefixOf_append_left (a b : List Char) : a.isPrefixOf (a ++ b) = true := by
  induction a with
  | nil => simp [List.isPrefixOf]
  | cons x xs ih => simp [List.isPrefixOf, ih]

/-- If a path starts with `"/gql"` it starts with `"/"`. -/
lemma startsWith_gql_slash (s : String) (h : pyStartsWith s "/gql" = true) :
    pyStartsWith s "/" = true := by
  unfold pyStartsWith at *
  exact isPrefixOf_trans _ _ _ (by decide) h

lemma truthy_some {t : String} (h : t ≠ "") : truthy (some t) = true := by
  simp [truthy, h]

lemma publicMatch_of_slash {path : String} (h : pyStartsWith path "/" = true) :
    publicMatch path = true := by
  simp [publicMatch, PUBLIC_PATHS, List.any_cons, h]

lemma not_slash_of_not_publicMatch {path : String} (h : publicMatch path = false) :
    pyStartsWith path "/" = false := by
  by_contra hc
  simp only [Bool.not_eq_false] at hc
  rw [publicMatch_of_slash hc] at h
  exact Bool.true_eq_false.mp h

lemma not_gql_of_not_publicMatch {path : String} (h : publicMatch path = false) :
    pyStartsWith path "/gql" = false := by
  by_contra hc
  simp only [Bool.not_eq_false] at hc
  rw [publicMatch_of_slash (startsWith_gql_slash _ hc)] at h
  exact Bool.true_eq_false.mp h

lemma strDrop_bearer (t : String) : strDrop ("Bearer " ++ t) 7 = t := by
  have hlen : ("Bearer ".data).length = 7 := rfl
  unfold strDrop
  rw [String.data_append, ← hlen, List.drop_left]

lemma startsWith_bearer (t : String) :
    pyStartsWith ("Bearer " ++ t) "Bearer " = true := by
  unfold pyStartsWith
  rw [String.data_append]
  exact isPrefixOf_append_left _ _

lemma bearer_append_ne_empty (t : String) : ("Bearer " ++ t) ≠ "" := by
  intro he
  have hd := congrArg String.data he
  rw [String.data_append] at hd
  simp at hd

/-! Claim theorems. -/

/-- Claim C1: with enforcement enabled, `dispatch` admits every request
whose path starts with `"/"` (as every HTTP path does), untouched and
without consulting the credential sources or the provider, because
`PUBLIC_PATHS` contains `"/"` and membership is a prefix match;
credential checking is left to the `require_auth` dependency, which does
reject a credential-less request. -/
theorem C1_public_root_admits_all (c : StytchClient) (path : String)
    (ck hdr : Option String) (hp : pyStartsWith path "/" = true) :
    dispatch true c ⟨path, ck, hdr⟩ = .ok (.next ⟨none, none, none⟩) ∧
    require_auth true c none none = .httpError 401 "Authentication required" := by
  constructor
  · simp [dispatch, publicMatch_of_slash hp]
  · rfl

/-- Witness for C1 at path `"/gql"` with a cookie present: the
middleware forwards it without validating anything. -/
theorem C1_public_root_admits_all_witness :
    dispatch true errClient ⟨"/gql", some "bad-token", none⟩ =
      .ok (.next ⟨none, none, none⟩) ∧
    require_auth true errClient none none =
      .httpError 401 "Authentication required" :=
  C1_public_root_admits_all errClient "/gql" (some "bad-token") none (by decide)

/-- Claim C2: a request whose path prefix-matches no public-path entry,
with no `session` cookie and no `Authorization` header, is rejected with
status 401 and a `{"error": ...}` body by `dispatch`, and likewise
`require_auth` raises a 401 when fed no credential. -/
theorem C2_missing_credential_rejected (c : StytchClient) (path : String)
    (hpub : publicMatch path = false) :
    dispatch true c ⟨path, none, none⟩ =
      .ok (.response 401 "Authentication required") ∧
    require_auth true c none none = .httpError 401 "Authentication required" := by
  constructor
  · simp [dispatch, hpub, not_gql_of_not_publicMatch hpub, getSessionToken, truthy]
  · rfl

/-- Witness for C2 at the non-public path `"x"`. -/
theorem C2_missing_credential_rejected_witness :
    dispatch true errClient ⟨"x", none, none⟩ =
      .ok (.response 401 "Authentication required") ∧
    require_auth true errClient none none =
      .httpError 401 "Authentication required" :=
  C2_missing_credential_rejected errClient "x" (by decide)

/-- Counterexample for claim C3: with enforcement disabled, the
middleware admits the request but writes only `authenticated = true` to
the request state; the full synthetic identity
`{user_id: "anonymous", session_id: "none", authenticated: true}` is
not attached by `dispatch` (here at path `"/docs"`). -/
theorem C3_counterexample :
    ¬ (dispatch false errClient ⟨"/docs", none, none⟩ =
        .ok (.next ⟨some true, some ⟨"anonymous", "none", true⟩, some "anonymous"⟩)) := by
  intro h
  simp [dispatch] at h

/-- Amended claim C3: with enforcement disabled every request is
admitted; `dispatch` attaches only `authenticated = true`, while the
full synthetic identity `{user_id: "anonymous", session_id: "none",
authenticated: true}` is attached by the `require_auth` dependency
(hence on GraphQL requests only). -/
theorem C3_enforcement_disabled_bypass (c : StytchClient) (req : Request)
    (s a : Option String) :
    dispatch false c req = .ok (.next ⟨some true, none, none⟩) ∧
    require_auth false c s a =
      .authOk ⟨some true, some ⟨"anonymous", "none", true⟩, some "anonymous"⟩
        ⟨"anonymous", "none", true⟩ :=
  ⟨rfl, rfl⟩

/-- Claim C4: when a non-empty `session` cookie is present, both the
middleware and the dependency validate the cookie value and never
consult the `Authorization` header: the extracted token is the cookie,
and the full outcome is unchanged if the header is removed. -/
theorem C4_cookie_precedence (enforce : Bool) (c : StytchClient)
    (path ck : String) (hdr : Option String) (hck : ck ≠ "") :
    getSessionToken (some ck) hdr = some ck ∧
    getSessionTokenDep (some ck) hdr = some ck ∧
    dispatch enforce c ⟨path, some ck, hdr⟩ = dispatch enforce c ⟨path, some ck, none⟩ ∧
    require_auth enforce c (some ck) hdr = require_auth enforce c (some ck) none := by
  have h1 : ∀ hd : Option String, getSessionToken (some ck) hd = some ck := by
    intro hd; simp [getSessionToken, truthy_some hck]
  have h2 : ∀ hd : Option String, getSessionTokenDep (some ck) hd = some ck := by
    intro hd; simp [getSessionTokenDep, truthy_some hck]
  refine ⟨h1 hdr, h2 hdr, ?_, ?_⟩
  · simp only [dispatch, h1]
  · simp only [require_auth, h2]

/-- Witness for C4: with cookie `"cookie-tok"` and a conflicting
`Bearer` header, the cookie is the extracted credential. -/
theorem C4_cookie_precedence_witness :
    getSessionToken (some "cookie-tok") (some "Bearer other") = some "cookie-tok" ∧
    getSessionTokenDep (some "cookie-tok") (some "Bearer other") = some "cookie-tok" ∧
    dispatch true errClient ⟨"x", some "cookie-tok", some "Bearer other"⟩ =
      dispatch true errClient ⟨"x", some "cookie-tok", none⟩ ∧
    require_auth true errClient (some "cookie-tok") (some "Bearer other") =
      require_auth true errClient (some "cookie-tok") none :=
  C4_cookie_precedence true errClient "x" "cookie-tok" (some "Bearer other")
    (by decide)

/-- Counterexample for claim C5: in the middleware, a header without a
`"Bearer "` prefix is never used as a credential (extraction yields
nothing, so the request is rejected as credential-less rather than the
raw value being validated), and on the non-GraphQL branch the extracted
token is passed to validation untrimmed (here `" tok "` reaches the
provider, observable in the echoed error body). -/
theorem C5_counterexample :
    getSessionToken none (some "raw-token") ≠ some (pyStrip "raw-token") ∧
    dispatch true errClient ⟨"x", none, some "raw-token"⟩ =
      .ok (.response 401 "Authentication required") ∧
    getSessionToken none (some "Bearer  tok ") = some " tok " ∧
    pyStrip " tok " ≠ " tok " ∧
    dispatch true echoClient ⟨"x", none, some "Bearer  tok "⟩ =
      .ok (.response 401 ("Invalid session: " ++ ("Invalid session: " ++ " tok "))) := by
  refine ⟨by decide, by decide, by decide, by decide, by decide⟩

/-- Amended claim C5: only `require_auth` extracts the raw header value
when the `"Bearer "` prefix is absent and trims the result; the
middleware uses an `Authorization` header only when it starts with
`"Bearer "` (otherwise the request is treated as credential-less), and
its `"Bearer "`-stripping keeps the remainder verbatim (the non-GraphQL
branch applies no trim). -/
theorem C5_header_extraction (c : StytchClient) (path h : String)
    (hpub : publicMatch path = false)
    (hb : pyStartsWith h "Bearer " = false) (hh : h ≠ "") :
    getSessionTokenDep none (some h) = some (pyStrip h) ∧
    getSessionToken none (some h) = none ∧
    dispatch true c ⟨path, none, some h⟩ =
      .ok (.response 401 "Authentication required") ∧
    (∀ t : String, getSessionToken none (some ("Bearer " ++ t)) = some t ∧
       getSessionTokenDep none (some ("Bearer " ++ t)) = some (pyStrip t)) := by
  refine ⟨?_, ?_, ?_, ?_⟩
  · simp [getSessionTokenDep, truthy, hh, hb]
  · simp [getSessionToken, truthy, hb]
  · simp [dispatch, hpub, not_gql_of_not_publicMatch hpub, getSessionToken, truthy, hb]
  · intro t
    constructor
    · simp [getSessionToken, truthy, startsWith_bearer, strDrop_bearer]
    · simp [getSessionTokenDep, truthy, bearer_append_ne_empty t,
        startsWith_bearer, strDrop_bearer]

/-- Witness for C5 (amended) at header value `"raw"` and path `"x"`. -/
theorem C5_header_extraction_witness :
    getSessionTokenDep none (some "raw") = some (pyStrip "raw") ∧
    getSessionToken none (some "raw") = none ∧
    dispatch true errClient ⟨"x", none, some "raw"⟩ =
      .ok (.response 401 "Authentication required") ∧
    (∀ t : String, getSessionToken none (some ("Bearer " ++ t)) = some t ∧
       getSessionTokenDep none (some ("Bearer " ++ t)) = some (pyStrip t)) :=
  C5_header_extraction errClient "x" "raw" (by decide) (by decide) (by decide)

/-- Claim C6: `validate_session` uses the local check first (a local
session wins regardless of the remote oracle), and when the local check
yields no result and the remote check succeeds, validation succeeds with
the remotely resolved identity and the middleware admits the request
with that identity attached (`authenticated = true`). -/
theorem C6_local_first_remote_fallback (c : StytchClient) (tok path : String)
    (hdr : Option String) (hpub : publicMatch path = false) (htok : tok ≠ "") :
    (∀ s, c.authenticate_jwt_local tok = .ok (some s) →
       validate_session c tok = .ok ⟨s.user_id, s.session_id, true⟩) ∧
    (∀ r, c.authenticate_jwt_local tok = .ok none → c.authenticate tok = .ok r →
       validate_session c tok = .ok ⟨r.user_id, r.session_id, true⟩ ∧
       dispatch true c ⟨path, some tok, hdr⟩ =
         .ok (.next ⟨some true, some ⟨r.user_id, r.session_id, true⟩,
           some r.user_id⟩)) := by
  have hne : (tok == "") = false := by simp [htok]
  constructor
  · intro s hl
    simp [validate_session, hne, hl]
  · intro r hl hr
    have hv : validate_session c tok = .ok ⟨r.user_id, r.session_id, true⟩ := by
      simp [validate_session, hne, hl, hr]
    refine ⟨hv, ?_⟩
    simp [dispatch, hpub, not_gql_of_not_publicMatch hpub, getSessionToken,
      truthy_some htok, hne, hv]

/-- Witness for C6: a client whose local check yields no result and
whose remote check resolves `("u-remote", "s-remote")`. -/
theorem C6_local_first_remote_fallback_witness :
    validate_session remoteOnlyClient "t" = .ok ⟨"u-remote", "s-remote", true⟩ ∧
    dispatch true remoteOnlyClient ⟨"x", some "t", none⟩ =
      .ok (.next ⟨some true, some ⟨"u-remote", "s-remote", true⟩,
        some "u-remote"⟩) :=
  (C6_local_first_remote_fallback remoteOnlyClient "t" "x" none (by decide)
    (by decide)).2 ⟨"u-remote", "s-remote"⟩ rfl rfl

/-- Claim C7: whether the local check raises, or yields no result and
the remote check fails, `validate_session` fails with the provider's
detail wrapped as `"Invalid session: " ++ e`, and the middleware
converts that into a 401 `{"error": ...}` response whose body carries
the failure detail. -/
theorem C7_invalid_credential_rejected (c : StytchClient) (tok path : String)
    (hdr : Option String) (hpub : publicMatch path = false) (htok : tok ≠ "") :
    (∀ e, c.authenticate_jwt_local tok = .error e →
       validate_session c tok = .error ("Invalid session: " ++ e) ∧
       dispatch true c ⟨path, some tok, hdr⟩ =
         .ok (.response 401 ("Invalid session: " ++ ("Invalid session: " ++ e)))) ∧
    (∀ e, c.authenticate_jwt_local tok = .ok none → c.authenticate tok = .error e →
       validate_session c tok = .error ("Invalid session: " ++ e) ∧
       dispatch true c ⟨path, some tok, hdr⟩ =
         .ok (.response 401 ("Invalid session: " ++ ("Invalid session: " ++ e)))) := by
  have hne : (tok == "") = false := by simp [htok]
  have hgql := not_gql_of_not_publicMatch hpub
  constructor
  · intro e hl
    have hv : validate_session c tok = .error ("Invalid session: " ++ e) := by
      simp [validate_session, hne, hl]
    exact ⟨hv, by simp [dispatch, hpub, hgql, getSessionToken, truthy_some htok, hne, hv]⟩
  · intro e hl hr
    have hv : validate_session c tok = .error ("Invalid session: " ++ e) := by
      simp [validate_session, hne, hl, hr]
    exact ⟨hv, by simp [dispatch, hpub, hgql, getSessionToken, truthy_some htok, hne, hv]⟩

/-- Witness for C7: a client whose local check yields no result and
whose remote check raises `"remote-bad"`. -/
theorem C7_invalid_credential_rejected_witness :
    validate_session failClient "t" = .error ("Invalid session: " ++ "remote-bad") ∧
    dispatch true failClient ⟨"x", some "t", none⟩ =
      .ok (.response 401
        ("Invalid session: " ++ ("Invalid session: " ++ "remote-bad"))) :=
  (C7_invalid_credential_rejected failClient "t" "x" none (by decide)
    (by decide)).2 "remote-bad" rfl rfl

/-- Claim C8: `handle_oauth_callback` with no `token` query parameter
returns a 400 JSON error body; the result is the same for every oracle,
so no provider call is made on this path. -/
theorem C8_callback_missing_token (c : StytchClient) :
    handle_oauth_callback c none =
      .jsonError 400 "No authentication token provided" :=
  rfl

/-- Claim C9: `handle_oauth_callback` with a non-empty token that the
OAuth exchange accepts redirects to `"/gql"` setting a `session` cookie
with `httponly = true` and `samesite = "lax"`; a rejected token yields a
401 JSON error body. -/
theorem C9_callback_with_token (c : StytchClient) (t : String) (ht : t ≠ "") :
    (∀ jwt, c.oauth_authenticate t = .ok jwt →
       handle_oauth_callback c (some t) =
         .redirect "/gql" ⟨"session", jwt, true, "lax"⟩) ∧
    (∀ e, c.oauth_authenticate t = .error e →
       handle_oauth_callback c (some t) =
         .jsonError 401 ("Authentication failed: " ++ e)) := by
  have hne : (t == "") = false := by simp [ht]
  constructor
  · intro jwt hj
    simp [handle_oauth_callback, hne, hj]
  · intro e he
    simp [handle_oauth_callback, hne, he]

/-- Witness for C9: a provider that exchanges `"tok"` for session JWT
`"jwt-1"`. -/
theorem C9_callback_with_token_witness :
    handle_oauth_callback okClient (some "tok") =
      .redirect "/gql" ⟨"session", "jwt-1", true, "lax"⟩ :=
  (C9_callback_with_token okClient "tok" (by decide)).1 "jwt-1" rfl

/-- Claim C10: for every enforcement state, oracle, path and credential
state, `dispatch` returns a response or forwards the request — the
modelled uncaught exception (`Except.error`, in particular the
GraphQL-branch `.strip()` on an absent token) is unreachable, because
every path reaching that branch starts with `"/gql"`, hence with `"/"`,
and is admitted as public first. -/
theorem C10_dispatch_no_uncaught_exception (enforce : Bool) (c : StytchClient)
    (req : Request) : ∃ r, dispatch enforce c req = .ok r := by
  cases enforce with
  | false => exact ⟨.next ⟨some true, none, none⟩, rfl⟩
  | true =>
    by_cases hpub : publicMatch req.path = true
    · exact ⟨.next ⟨none, none, none⟩, by simp [dispatch, hpub]⟩
    · have hpub' : publicMatch req.path = false := by simpa using hpub
      have hgql := not_gql_of_not_publicMatch hpub'
      cases hgt : getSessionToken req.cookieSession req.authHeader with
      | none =>
        exact ⟨.response 401 "Authentication required",
          by simp [dispatch, hpub', hgql, hgt]⟩
      | some t =>
        by_cases hte : (t == "") = true
        · exact ⟨.response 401 "Authentication required",
            by simp [dispatch, hpub', hgql, hgt, hte]⟩
        · have hte' : (t == "") = false := by simpa using hte
          cases hv : validate_session c t with
          | ok s =>
            exact ⟨.next ⟨some true, some s, some s.user_id⟩,
              by simp [dispatch, hpub', hgql, hgt, hte', hv]⟩
          | error e =>
            exact ⟨.response 401 ("Invalid session: " ++ e),
              by simp [dispatch, hpub', hgql, hgt, hte', hv]⟩

end Sticho
